import Mathlib

/-!
Shallow embedding of the site-guard monitoring engine
(`src/site_guard/domain/models/config.py`, `domain/models/content.py`,
`infrastructure/http/checker.py`, `domain/services/monitoring.py`)
together with theorems settling the specification claims about it.
Python floats are modelled as rationals, wall-clock timing is abstracted
to a constant, and the random jitter draw of `RetryConfig.calculate_delay`
is passed in as an explicit factor.
-/

namespace SiteGuard

/-- The `RetryStrategy` enum of `domain/models/config.py`. -/
inductive RetryStrategy
  | FIXED
  | EXPONENTIAL
  | LINEAR
deriving DecidableEq

/-- The `RetryConfig` pydantic dataclass of `domain/models/config.py`;
field defaults mirror the source.  `max_attempts` is declared `PositiveInt`
and the delay fields `NonNegativeFloat` / `PositiveFloat` in the source;
those construction-time validations are modelled by `mkRetryConfig`. -/
structure RetryConfig where
  enabled : Bool := true
  max_attempts : Nat := 3
  strategy : RetryStrategy := RetryStrategy.EXPONENTIAL
  base_delay_seconds : ℚ := 1
  max_delay_seconds : ℚ := 30
  backoff_multiplier : ℚ := 2
  retry_on_status_codes : List Int := [500, 502, 503, 504]
  retry_on_timeout : Bool := true
  retry_on_connection_error : Bool := true
  jitter : Bool := true
deriving DecidableEq

/-- `RetryConfig()` with every field left at its default. -/
def defaultRetryConfig : RetryConfig := {}

/-- The strategy `match` at the top of `RetryConfig.calculate_delay`
(config.py lines 53-58): the un-clamped delay for an attempt number ≥ 1. -/
def rawDelay (c : RetryConfig) (attempt : Int) : ℚ :=
  match c.strategy with
  | RetryStrategy.FIXED => c.base_delay_seconds
  | RetryStrategy.LINEAR => c.base_delay_seconds * (attempt : ℚ)
  | RetryStrategy.EXPONENTIAL =>
      c.base_delay_seconds * c.backoff_multiplier ^ (attempt - 1).toNat

/-- The delay after the `min(delay, max_delay_seconds)` clamp
(config.py line 61), before any jitter is applied. -/
def preJitterDelay (c : RetryConfig) (attempt : Int) : ℚ :=
  min (rawDelay c attempt) c.max_delay_seconds

/-- `RetryConfig.calculate_delay` (config.py lines 48-70).  The random
`random.uniform(0.8, 1.2)` draw is passed in as `jitterFactor`; when
`jitter` is disabled the factor is unused, as in the source. -/
def calculate_delay (c : RetryConfig) (attempt : Int) (jitterFactor : ℚ) : ℚ :=
  if attempt ≤ 0 then 0
  else
    let delay := rawDelay c attempt
    let delay := min delay c.max_delay_seconds
    if c.jitter then delay * jitterFactor else delay

/-- Construction of a `RetryConfig`: pydantic validates the declared field
types (`PositiveInt`, `NonNegativeFloat`, `PositiveFloat`) and then
`__post_init__` (config.py lines 44-46) rejects
`max_delay_seconds < base_delay_seconds`. -/
def mkRetryConfig (enabled : Bool) (max_attempts : Int) (strategy : RetryStrategy)
    (base_delay_seconds max_delay_seconds backoff_multiplier : ℚ)
    (retry_on_status_codes : List Int)
    (retry_on_timeout retry_on_connection_error jitter : Bool) :
    Except String RetryConfig :=
  if max_attempts ≤ 0 then
    Except.error ("max_attempts must be a positive integer")
  else if base_delay_seconds < 0 then
    Except.error ("base_delay_seconds must be non-negative")
  else if max_delay_seconds < 0 then
    Except.error ("max_delay_seconds must be non-negative")
  else if backoff_multiplier ≤ 0 then
    Except.error ("backoff_multiplier must be positive")
  else if max_delay_seconds < base_delay_seconds then
    Except.error ("max_delay_seconds must be >= base_delay_seconds")
  else
    Except.ok
      { enabled := enabled
        max_attempts := max_attempts.toNat
        strategy := strategy
        base_delay_seconds := base_delay_seconds
        max_delay_seconds := max_delay_seconds
        backoff_multiplier := backoff_multiplier
        retry_on_status_codes := retry_on_status_codes
        retry_on_timeout := retry_on_timeout
        retry_on_connection_error := retry_on_connection_error
        jitter := jitter }

/-- Claim C3: for every retry policy, `calculate_delay` returns 0 for
attempt ≤ 0; for attempt ≥ 1 it is the strategy's raw delay clamped to
`max_delay_seconds` and only then multiplied by the jitter factor; hence
for any jitter factor in [0.8, 1.2] the result is ≤ `max_delay * 1.2`
with jitter enabled and ≤ `max_delay` with jitter disabled. -/
theorem C3_calculate_delay_clamp_then_jitter_bounds (c : RetryConfig)
    (attempt : Int) (j : ℚ) (hmax : 0 ≤ c.max_delay_seconds)
    (hj1 : 4/5 ≤ j) (hj2 : j ≤ 6/5) :
    (attempt ≤ 0 → calculate_delay c attempt j = 0) ∧
    (1 ≤ attempt → calculate_delay c attempt j =
      (if c.jitter then preJitterDelay c attempt * j else preJitterDelay c attempt)) ∧
    (c.jitter = true → calculate_delay c attempt j ≤ c.max_delay_seconds * (6/5)) ∧
    (c.jitter = false → calculate_delay c attempt j ≤ c.max_delay_seconds) := by
  have hj0 : (0 : ℚ) ≤ j := le_trans (by norm_num) hj1
  refine ⟨fun h => by simp [calculate_delay, h], fun h => ?_, fun hj => ?_, fun hj => ?_⟩
  · have h0 : ¬ attempt ≤ 0 := by omega
    simp [calculate_delay, preJitterDelay, h0]
  · by_cases h0 : attempt ≤ 0
    · simp only [calculate_delay, if_pos h0]
      exact mul_nonneg hmax (by norm_num)
    · simp only [calculate_delay, if_neg h0, hj, if_true]
      calc min (rawDelay c attempt) c.max_delay_seconds * j
          ≤ c.max_delay_seconds * j :=
            mul_le_mul_of_nonneg_right (min_le_right _ _) hj0
        _ ≤ c.max_delay_seconds * (6/5) :=
            mul_le_mul_of_nonneg_left hj2 hmax
  · by_cases h0 : attempt ≤ 0
    · simp [calculate_delay, h0, hmax]
    · simp only [calculate_delay, if_neg h0, hj, if_false]
      exact min_le_right _ _

/-- Witness for C3 at the default config, attempt 2, jitter factor 1. -/
theorem C3_witness : calculate_delay {} 2 1 ≤ 36 := by
  have h : calculate_delay {} 2 1 ≤ 30 * (6/5) :=
    (C3_calculate_delay_clamp_then_jitter_bounds {} 2 1 (by norm_num)
      (by norm_num) (by norm_num)).2.2.1 rfl
  exact le_trans h (by norm_num)

/-- A retry policy with `backoff_multiplier = 1/2 > 0`, as the C4 claim
allows. -/
def cexC4 : RetryConfig :=
  { strategy := RetryStrategy.EXPONENTIAL
    base_delay_seconds := 1
    max_delay_seconds := 30
    backoff_multiplier := 1/2 }

/-- Counterexample to claim C4 as stated: with the EXPONENTIAL strategy and
`backoff_multiplier = 1/2` (which is > 0), the pre-jitter clamped delay for
attempt 2 is strictly smaller than for attempt 1, so the delay is not
monotone non-decreasing. -/
theorem C4_counterexample :
    0 < cexC4.backoff_multiplier ∧
    cexC4.strategy = RetryStrategy.EXPONENTIAL ∧
    preJitterDelay cexC4 2 < preJitterDelay cexC4 1 := by
  refine ⟨by norm_num [cexC4], rfl, ?_⟩
  norm_num [preJitterDelay, rawDelay, cexC4]

/-- Claim C4 (amended): for every retry policy with non-negative base delay
and attempt numbers 1 ≤ m ≤ n, the pre-jitter clamped delay is the same
constant under FIXED, monotone non-decreasing under LINEAR, and monotone
non-decreasing under EXPONENTIAL provided `backoff_multiplier ≥ 1`. -/
theorem C4_amended_preJitter_monotone (c : RetryConfig) (m n : Int)
    (hb : 0 ≤ c.base_delay_seconds) (hm : 1 ≤ m) (hmn : m ≤ n) :
    (c.strategy = RetryStrategy.FIXED → preJitterDelay c m = preJitterDelay c n) ∧
    (c.strategy = RetryStrategy.LINEAR → preJitterDelay c m ≤ preJitterDelay c n) ∧
    (c.strategy = RetryStrategy.EXPONENTIAL → 1 ≤ c.backoff_multiplier →
      preJitterDelay c m ≤ preJitterDelay c n) := by
  refine ⟨fun hs => ?_, fun hs => ?_, fun hs hmult => ?_⟩
  · simp [preJitterDelay, rawDelay, hs]
  · simp only [preJitterDelay, rawDelay, hs]
    refine min_le_min_right _ (mul_le_mul_of_nonneg_left ?_ hb)
    exact_mod_cast hmn
  · simp only [preJitterDelay, rawDelay, hs]
    refine min_le_min_right _ (mul_le_mul_of_nonneg_left ?_ hb)
    exact pow_le_pow_right₀ hmult (Int.toNat_le_toNat (by omega))

/-- Witness for C4 (amended) at a LINEAR policy, attempts 1 and 2. -/
theorem C4_amended_witness :
    preJitterDelay { strategy := RetryStrategy.LINEAR } 1 ≤
      preJitterDelay { strategy := RetryStrategy.LINEAR } 2 :=
  (C4_amended_preJitter_monotone { strategy := RetryStrategy.LINEAR } 1 2
    (by norm_num) (by norm_num) (by norm_num)).2.1 rfl

/-- Claim C7: constructing a retry policy with
`max_delay_seconds < base_delay_seconds` always fails, and every
successfully constructed policy satisfies
`base_delay_seconds ≤ max_delay_seconds`. -/
theorem C7_max_delay_ge_base_delay (enabled : Bool) (ma : Int)
    (strategy : RetryStrategy) (base maxd mult : ℚ) (codes : List Int)
    (rt rc jit : Bool) :
    (maxd < base →
      (mkRetryConfig enabled ma strategy base maxd mult codes rt rc jit).isOk = false) ∧
    (∀ c : RetryConfig,
      mkRetryConfig enabled ma strategy base maxd mult codes rt rc jit = Except.ok c →
      c.base_delay_seconds ≤ c.max_delay_seconds) := by
  constructor
  · intro hlt
    simp only [mkRetryConfig]
    split_ifs <;> rfl
  · intro c hc
    simp only [mkRetryConfig] at hc
    split_ifs at hc with h1 h2 h3 h4 h5
    cases hc
    simpa using le_of_not_lt h5

/-- Witness for C7: rejection at `max_delay = 1 < 2 = base_delay`, and the
invariant on a successfully constructed policy. -/
theorem C7_witness :
    (mkRetryConfig true 3 RetryStrategy.EXPONENTIAL 2 1 2 [500] true true true).isOk
        = false ∧
    ((defaultRetryConfig).base_delay_seconds ≤ (defaultRetryConfig).max_delay_seconds) := by
  constructor
  · exact (C7_max_delay_ge_base_delay true 3 RetryStrategy.EXPONENTIAL 2 1 2 [500]
      true true true).1 (by norm_num)
  · exact (C7_max_delay_ge_base_delay true 3 RetryStrategy.EXPONENTIAL 1 30 2
      [500, 502, 503, 504] true true true).2 defaultRetryConfig rfl

/-- Scan a bracket-expression body for its closing `]`; `acc` holds the
members already seen (reversed).  `none` means no `]` closes the
expression. -/
def bracketScan : List Char → List Char → Option (List Char × List Char)
  | _acc, [] => none
  | acc, c :: rest =>
      if c = ']' then some (acc.reverse, rest) else bracketScan (c :: acc) rest

theorem bracketScan_length (l : List Char) :
    ∀ acc it r, bracketScan acc l = some (it, r) → r.length < l.length := by
  induction l with
  | nil => intro acc it r h; simp [bracketScan] at h
  | cons c rest ih =>
    intro acc it r h
    by_cases hc : c = ']'
    · rw [bracketScan, if_pos hc] at h
      obtain ⟨-, hr⟩ := Prod.mk.injEq .. ▸ Option.some.inj h
      simp [← hr]
    · rw [bracketScan, if_neg hc] at h
      have := ih (c :: acc) it r h
      simp only [List.length_cons]
      omega

/-- Bracket-expression parsing mirroring `fnmatch.translate`: after `[` an
optional `!` negates; a `]` in first member position is a literal member;
the expression ends at the next `]`; with no closing `]` the `[` itself
is literal (signalled by `none`). -/
def parseBracket (l : List Char) : Option (Bool × List Char × List Char) :=
  match l with
  | '!' :: ']' :: rest => (bracketScan [']'] rest).map fun p => (true, p.1, p.2)
  | '!' :: rest => (bracketScan [] rest).map fun p => (true, p.1, p.2)
  | ']' :: rest => (bracketScan [']'] rest).map fun p => (false, p.1, p.2)
  | rest => (bracketScan [] rest).map fun p => (false, p.1, p.2)

theorem parseBracket_length (l : List Char) (b : Bool) (it r : List Char)
    (h : parseBracket l = some (b, it, r)) : r.length < l.length := by
  unfold parseBracket at h
  split at h <;>
    (obtain ⟨⟨it', r'⟩, hscan, hf⟩ := Option.map_eq_some'.mp h
     obtain ⟨-, -, hr⟩ := Prod.mk.injEq .. ▸ hf
     have := bracketScan_length _ _ _ _ hscan
     simp_all
     try omega)

/-- One token of a glob pattern. -/
inductive GlobTok
  | lit (c : Char)
  | anyOne
  | star
  | cls (neg : Bool) (items : List Char)
deriving DecidableEq

/-- Tokenization of a glob pattern, following `fnmatch.translate`:
`*`, `?`, bracket expressions, and literal characters. -/
def parseGlob : List Char → List GlobTok
  | [] => []
  | '*' :: rest => GlobTok.star :: parseGlob rest
  | '?' :: rest => GlobTok.anyOne :: parseGlob rest
  | '[' :: rest =>
      match h : parseBracket rest with
      | none => GlobTok.lit '[' :: parseGlob rest
      | some (neg, items, rest2) => GlobTok.cls neg items :: parseGlob rest2
  | c :: rest => GlobTok.lit c :: parseGlob rest
termination_by l => l.length
decreasing_by
  all_goals simp_wf
  all_goals first
    | omega
    | (have hb := parseBracket_length _ _ _ _ h; omega)

/-- Membership of a character in a bracket-expression member list:
`a-b` is an inclusive range; a `-` in first or last position is literal,
matching the character class `fnmatch.translate` produces. -/
def memberOfClass : List Char → Char → Bool
  | [], _ => false
  | a :: '-' :: b :: rest, c =>
      (decide (a ≤ c) && decide (c ≤ b)) || memberOfClass rest c
  | a :: rest, c => (a == c) || memberOfClass rest c

/-- Glob matching of a token list against text, equivalent to the anchored
regex built by `fnmatch.translate`: `*` matches any run of characters,
`?` exactly one, a class one class member (complemented when negated), and
the pattern must cover the entire text. -/
def globMatch : List GlobTok → List Char → Bool
  | [], [] => true
  | [], _ :: _ => false
  | GlobTok.star :: ps, [] => globMatch ps []
  | GlobTok.star :: ps, c :: cs =>
      globMatch ps (c :: cs) || globMatch (GlobTok.star :: ps) cs
  | GlobTok.anyOne :: _, [] => false
  | GlobTok.anyOne :: ps, _ :: cs => globMatch ps cs
  | GlobTok.lit _ :: _, [] => false
  | GlobTok.lit a :: ps, c :: cs => (a == c) && globMatch ps cs
  | GlobTok.cls _ _ :: _, [] => false
  | GlobTok.cls neg items :: ps, c :: cs =>
      (neg != memberOfClass items c) && globMatch ps cs
termination_by ps cs => (ps.length, cs.length)

/-- The `str.lower()` call of `ContentRequirement.matches`, modelled as
per-character lowercasing. -/
def lowerStr (s : String) : String := String.mk (s.data.map Char.toLower)

/-- `ContentRequirement` of `domain/models/content.py`.  The
`validate_pattern` field validator (pattern non-empty after stripping) is
carried as a hypothesis where a claim needs it. -/
structure ContentRequirement where
  pattern : String
  use_wildcards : Bool := false
  case_sensitive : Bool := true
deriving DecidableEq

/-- Python list/string prefix test used by `hasSubstr`. -/
def startsWithChars : List Char → List Char → Bool
  | _, [] => true
  | [], _ :: _ => false
  | c :: cs, p :: ps => (p == c) && startsWithChars cs ps

/-- Python `needle in haystack` substring containment over characters. -/
def hasSubstr : List Char → List Char → Bool
  | [], pat => startsWithChars [] pat
  | c :: rest, pat => startsWithChars (c :: rest) pat || hasSubstr rest pat

/-- `ContentRequirement.matches` (content.py lines 22-29). -/
def ContentRequirement.matches (r : ContentRequirement) (content : String) : Bool :=
  let text := if r.case_sensitive then content else lowerStr content
  let pat := if r.case_sensitive then r.pattern else lowerStr r.pattern
  if r.use_wildcards then globMatch (parseGlob pat.data) text.data
  else hasSubstr text.data pat.data

/-- A content requirement as stored in `SiteConfig.content_requirements`:
either a structured `ContentRequirement` or a bare backward-compatibility
string (checked as a literal substring). -/
inductive ReqEntry
  | req (r : ContentRequirement)
  | str (s : String)
deriving DecidableEq

/-- The per-entry check of `SiteConfig.check_content_requirements`
(config.py lines 120-126) and of the checker's boolean variant
(checker.py line 284). -/
def entryMatches (e : ReqEntry) (content : String) : Bool :=
  match e with
  | ReqEntry.req r => r.matches content
  | ReqEntry.str s => hasSubstr content.data s.data

/-- The pattern recorded in `failed_patterns` for a failing entry. -/
def entryPattern : ReqEntry → String
  | ReqEntry.req r => r.pattern
  | ReqEntry.str s => s

/-- `SiteConfigResult` of `domain/models/config.py`. -/
structure SiteConfigResult where
  success : Bool
  failed_patterns : List String
deriving DecidableEq

/-- The collection loop of `SiteConfig.check_content_requirements`
(config.py lines 118-126). -/
def failedPatterns (entries : List ReqEntry) (content : String) : List String :=
  match entries with
  | [] => []
  | e :: rest =>
      if entryMatches e content then failedPatterns rest content
      else entryPattern e :: failedPatterns rest content

/-- `SiteConfig.check_content_requirements` (config.py lines 111-135). -/
def check_content_requirements (entries : List ReqEntry) (require_all_content : Bool)
    (content : String) : SiteConfigResult :=
  let failed := failedPatterns entries content
  { success :=
      if require_all_content then decide (failed.length = 0)
      else decide (failed.length < entries.length)
    failed_patterns := failed }

/-- Claim C2: `check_content_requirements` collects, in requirement order,
exactly the patterns of the entries that do not match the body, and
succeeds iff (require_all → no failures) and
(not require_all → strictly fewer failures than requirements). -/
theorem C2_check_content_requirements_spec (entries : List ReqEntry)
    (content : String) (require_all : Bool) :
    (check_content_requirements entries require_all content).failed_patterns =
      (entries.filter fun e => ! entryMatches e content).map entryPattern ∧
    ((check_content_requirements entries require_all content).success = true ↔
      ((require_all = true →
          (check_content_requirements entries require_all content).failed_patterns = []) ∧
       (require_all = false →
          (check_content_requirements entries require_all content).failed_patterns.length <
            entries.length))) := by
  have hfail : ∀ es : List ReqEntry, failedPatterns es content =
      (es.filter fun e => ! entryMatches e content).map entryPattern := by
    intro es
    induction es with
    | nil => rfl
    | cons e rest ih =>
      by_cases h : entryMatches e content <;>
        simp [failedPatterns, List.filter_cons, h, ih]
  refine ⟨hfail entries, ?_⟩
  cases require_all <;>
    simp [check_content_requirements, List.length_eq_zero]

/-- Witness for C2 at the specification's scenario: requirements
`Python`, `Java`, `JavaScript`, body `Learn Python today`,
`require_all = false` — the check succeeds. -/
theorem C2_witness :
    (check_content_requirements
      [ReqEntry.str "Python", ReqEntry.str "Java", ReqEntry.str "JavaScript"]
      false ("Learn Python today")).success = true := by
  have h := (C2_check_content_requirements_spec
    [ReqEntry.str "Python", ReqEntry.str "Java", ReqEntry.str "JavaScript"]
    ("Learn Python today") false).2
  exact h.mpr ⟨fun hf => Bool.noConfusion hf, fun _ => by decide⟩

/-- The C5 counterexample requirement: wildcard pattern `*`. -/
def cexC5 : ContentRequirement := { pattern := "*", use_wildcards := true }

/-- Counterexample to claim C5 as stated: the non-empty wildcard pattern
`*` matches the empty body. -/
theorem C5_counterexample :
    cexC5.pattern ≠ "" ∧ cexC5.matches "" = true := by
  refine ⟨by decide, ?_⟩
  simp [cexC5, ContentRequirement.matches, parseGlob, globMatch]

/-- Claim C5 (amended): with wildcards disabled, an empty body never
matches a requirement whose pattern is non-empty, whatever the
case-sensitivity flag; with wildcards enabled this can fail (pattern `*`
matches the empty body). -/
theorem C5_amended_empty_body_never_matches_literal (r : ContentRequirement)
    (hp : r.pattern ≠ "") (hw : r.use_wildcards = false) :
    r.matches "" = false := by
  have hdata : r.pattern.data ≠ [] := by
    intro h
    exact hp (String.ext h)
  unfold ContentRequirement.matches
  rw [hw]
  by_cases hc : r.case_sensitive
  · simp only [hc, if_true, if_false, Bool.false_eq_true]
    obtain ⟨p, ps, hps⟩ := List.exists_cons_of_ne_nil hdata
    rw [hps]
    rfl
  · simp only [hc, if_false, Bool.false_eq_true]
    have hld : (lowerStr r.pattern).data = r.pattern.data.map Char.toLower := rfl
    have hne : (lowerStr r.pattern).data ≠ [] := by
      rw [hld]
      simpa using hdata
    obtain ⟨p, ps, hps⟩ := List.exists_cons_of_ne_nil hne
    rw [show (lowerStr "").data = [] from rfl, hps]
    rfl

/-- Witness for C5 (amended): literal pattern `Python` against the empty
body. -/
theorem C5_amended_witness :
    ({ pattern := "Python" } : ContentRequirement).matches "" = false :=
  C5_amended_empty_body_never_matches_literal _ (by decide) rfl

/-- The `CheckStatus` enum of `domain/models/status.py`. -/
inductive CheckStatus
  | SUCCESS
  | CONNECTION_ERROR
  | CONTENT_ERROR
  | TIMEOUT_ERROR
  | SERVER_ERROR
  | REDIRECT_ERROR
  | NOT_FOUND
deriving DecidableEq

/-- `SiteCheckResult` of `domain/models/result.py`, restricted to the
fields the checker sets; the wall-clock `timestamp` and measured latency
are abstracted (latency is recorded as 0). -/
structure SiteCheckResult where
  url : String
  status : CheckStatus
  response_time_ms : Option Nat
  error_message : Option String := none
deriving DecidableEq

/-- `SiteConfig` of `domain/models/config.py`; `__post_init__` has already
normalised `content_requirements` (bare strings stay representable as
`ReqEntry.str`). -/
structure SiteConfig where
  url : String
  content_requirements : List ReqEntry
  timeout : ℚ := 30
  require_all_content : Bool := true
  name : Option String := none
  retry_config : RetryConfig := {}
deriving DecidableEq

/-- The exceptions that can escape `_perform_single_check` into
`check_site`'s `except` clause: `RetryableHttpError` (raised for
HTTP status ≥ 400) and any other `aiohttp.ClientError`
(`TimeoutError` and `ClientConnectorError` are caught inside
`_perform_single_check` and turned into results). -/
inductive PyExc
  | retryableHttpError (status_code : Int) (message : String)
  | clientError
deriving DecidableEq

/-- The externally observable behaviour of one HTTP attempt: a response
with a status code and body, a timeout, a connection failure, or some
other transport-level client error. -/
inductive HttpEvent
  | response (status : Int) (body : String)
  | timeout
  | connError
  | clientError
deriving DecidableEq

/-- `HttpSiteChecker._check_content_requirements` (checker.py lines
273-290): boolean all/any aggregation, vacuously true on no
requirements. -/
def checkerContentCheck (content : String) (reqs : List ReqEntry)
    (require_all : Bool) : Bool :=
  if reqs.isEmpty then true
  else if require_all then reqs.all fun r => entryMatches r content
  else reqs.any fun r => entryMatches r content

/-- `HttpSiteChecker._perform_single_check` (checker.py lines 117-189):
status ≥ 400 raises `RetryableHttpError`; otherwise the body is checked
and the result classified `SUCCESS` or `CONTENT_ERROR`; timeouts and
connection failures are caught and returned as classified results. -/
def performSingleCheck (site : SiteConfig) (ev : HttpEvent) :
    Except PyExc SiteCheckResult :=
  match ev with
  | HttpEvent.response status body =>
      if 400 ≤ status then
        Except.error (PyExc.retryableHttpError status
          ("HTTP error " ++ toString status))
      else
        let passed := checkerContentCheck body site.content_requirements
          site.require_all_content
        Except.ok
          { url := site.url
            status := if passed then CheckStatus.SUCCESS else CheckStatus.CONTENT_ERROR
            response_time_ms := some 0
            error_message :=
              if passed then none else some ("Content requirements not met") }
  | HttpEvent.timeout =>
      Except.ok
        { url := site.url
          status := CheckStatus.TIMEOUT_ERROR
          response_time_ms := some 0
          error_message := some ("Request timed out") }
  | HttpEvent.connError =>
      Except.ok
        { url := site.url
          status := CheckStatus.CONNECTION_ERROR
          response_time_ms := some 0
          error_message := some ("Connection error") }
  | HttpEvent.clientError => Except.error PyExc.clientError

/-- `HttpSiteChecker._should_retry` (checker.py lines 191-210). -/
def shouldRetry (result : SiteCheckResult) (rc : RetryConfig) (attempt : Nat) : Bool :=
  if !rc.enabled || decide (rc.max_attempts - 1 ≤ attempt) then false
  else if result.status == CheckStatus.SERVER_ERROR then true
  else if rc.retry_on_timeout && (result.status == CheckStatus.TIMEOUT_ERROR) then true
  else rc.retry_on_connection_error && (result.status == CheckStatus.CONNECTION_ERROR)

/-- `HttpSiteChecker._should_retry_exception` (checker.py lines 212-238). -/
def shouldRetryException (e : PyExc) (rc : RetryConfig) (attempt : Nat) : Bool :=
  if !rc.enabled || decide (rc.max_attempts - 1 ≤ attempt) then false
  else
    match e with
    | PyExc.retryableHttpError code _ => rc.retry_on_status_codes.contains code
    | PyExc.clientError => rc.retry_on_connection_error

/-- `HttpSiteChecker._create_error_result` (checker.py lines 240-271).
Note the source maps a final `RetryableHttpError` — an HTTP ≥ 400 status —
to `CONNECTION_ERROR`, not `SERVER_ERROR`. -/
def createErrorResult (site : SiteConfig) (exc : Option PyExc) (attempts : Nat) :
    SiteCheckResult :=
  match exc with
  | some (PyExc.retryableHttpError code msg) =>
      { url := site.url
        status := CheckStatus.CONNECTION_ERROR
        response_time_ms := some 0
        error_message := some ("HTTP " ++ toString code ++ " after " ++
          toString attempts ++ " attempts: " ++ msg) }
  | some PyExc.clientError =>
      { url := site.url
        status := CheckStatus.CONNECTION_ERROR
        response_time_ms := some 0
        error_message := some ("Unknown error after " ++ toString attempts ++
          " attempts") }
  | none =>
      { url := site.url
        status := CheckStatus.CONNECTION_ERROR
        response_time_ms := some 0
        error_message := some ("Unknown error after " ++ toString attempts ++
          " attempts: None") }

/-- The retry loop of `HttpSiteChecker.check_site` (checker.py lines
60-115).  `attempt` is the current loop index, `fuel` the remaining
iterations of `range(max_attempts)`, `lastExc` the `last_exception`
variable.  Returns the final result paired with the number of attempts
performed. -/
def checkSiteAux (site : SiteConfig) (rc : RetryConfig) (events : Nat → HttpEvent) :
    Nat → Nat → Option PyExc → SiteCheckResult × Nat
  | attempt, 0, lastExc => (createErrorResult site lastExc rc.max_attempts, attempt)
  | attempt, fuel+1, lastExc =>
      match performSingleCheck site (events attempt) with
      | Except.ok result =>
          if shouldRetry result rc attempt && decide (attempt < rc.max_attempts - 1) then
            checkSiteAux site rc events (attempt+1) fuel lastExc
          else (result, attempt + 1)
      | Except.error e =>
          if shouldRetryException e rc attempt && decide (attempt < rc.max_attempts - 1) then
            checkSiteAux site rc events (attempt+1) fuel (some e)
          else (createErrorResult site (some e) rc.max_attempts, attempt + 1)

/-- `HttpSiteChecker.check_site`, driven by the per-attempt events. -/
def check_site (site : SiteConfig) (events : Nat → HttpEvent) : SiteCheckResult × Nat :=
  checkSiteAux site site.retry_config events 0 site.retry_config.max_attempts none

theorem shouldRetry_contentError (rc : RetryConfig) (attempt : Nat)
    (r : SiteCheckResult) (h : r.status = CheckStatus.CONTENT_ERROR) :
    shouldRetry r rc attempt = false := by
  simp [shouldRetry, h]

theorem checkSiteAux_contentError_terminal (site : SiteConfig) (rc : RetryConfig)
    (events : Nat → HttpEvent) (attempt fuel : Nat) (lastExc : Option PyExc)
    (r : SiteCheckResult)
    (hres : performSingleCheck site (events attempt) = Except.ok r)
    (hst : r.status = CheckStatus.CONTENT_ERROR) :
    checkSiteAux site rc events attempt (fuel + 1) lastExc = (r, attempt + 1) := by
  rw [checkSiteAux, hres]
  simp [shouldRetry_contentError rc attempt r hst]

/-- The C1 scenario: retry policy with `max_attempts = 3`,
`retry_on_status_codes = [500]`, every attempt answered with HTTP 500. -/
def rcC1 : RetryConfig := { max_attempts := 3, retry_on_status_codes := [500] }

/-- The C1 site under that policy. -/
def siteC1 : SiteConfig :=
  { url := "https://example.com"
    content_requirements := [ReqEntry.str "ok"]
    retry_config := rcC1 }

/-- Every attempt of the C1 scenario sees an HTTP 500 response. -/
def eventsC1 : Nat → HttpEvent := fun _ => HttpEvent.response 500 ""

/-- Claim C1, evaluated on the code: under `max_attempts = 3` and
`retry_on_status_codes = [500]` with every response HTTP 500, `check_site`
performs exactly 3 attempts — but the final result is classified
`CONNECTION_ERROR` by `_create_error_result`, not `SERVER_ERROR` as the
specification (and the repository's own integration test) state. -/
theorem C1_http500_three_attempts_connection_error :
    (check_site siteC1 eventsC1).2 = 3 ∧
    (check_site siteC1 eventsC1).1.status = CheckStatus.CONNECTION_ERROR ∧
    (check_site siteC1 eventsC1).1.status ≠ CheckStatus.SERVER_ERROR := by
  refine ⟨rfl, rfl, by decide⟩

/-- Claim C6: a `CONTENT_ERROR` result is never retried — `_should_retry`
returns false on it for every policy and attempt number, and in the retry
loop an attempt producing a `CONTENT_ERROR` result returns it at once with
no further attempt. -/
theorem C6_content_error_never_retried :
    (∀ (rc : RetryConfig) (attempt : Nat) (r : SiteCheckResult),
        r.status = CheckStatus.CONTENT_ERROR → shouldRetry r rc attempt = false) ∧
    (∀ (site : SiteConfig) (rc : RetryConfig) (events : Nat → HttpEvent)
        (attempt fuel : Nat) (lastExc : Option PyExc) (r : SiteCheckResult),
        performSingleCheck site (events attempt) = Except.ok r →
        r.status = CheckStatus.CONTENT_ERROR →
        checkSiteAux site rc events attempt (fuel + 1) lastExc = (r, attempt + 1)) :=
  ⟨fun rc attempt r h => shouldRetry_contentError rc attempt r h,
   fun site rc events attempt fuel lastExc r hres hst =>
     checkSiteAux_contentError_terminal site rc events attempt fuel lastExc r hres hst⟩

/-- The C6 witness site: one literal requirement that the body misses. -/
def siteC6 : SiteConfig := { url := "u", content_requirements := [ReqEntry.str "Python"] }

/-- Every attempt of the C6 witness run returns HTTP 200 with body `nope`. -/
def eventsC6 : Nat → HttpEvent := fun _ => HttpEvent.response 200 "nope"

/-- The `CONTENT_ERROR` result the C6 witness attempt produces. -/
def rC6 : SiteCheckResult :=
  { url := "u"
    status := CheckStatus.CONTENT_ERROR
    response_time_ms := some 0
    error_message := some ("Content requirements not met") }

/-- Witness for C6 at a concrete content-mismatch attempt. -/
theorem C6_witness :
    shouldRetry rC6 {} 0 = false ∧
    checkSiteAux siteC6 {} eventsC6 0 3 none = (rC6, 1) :=
  ⟨C6_content_error_never_retried.1 {} 0 rC6 rfl,
   C6_content_error_never_retried.2 siteC6 {} eventsC6 0 2 none rC6 rfl rfl⟩

/-- The observable effects of one round of
`MonitoringService.monitor_sites` (monitoring.py lines 19-61): the results
yielded, the number of checker tasks created, and the number of
`log_result` sink calls. -/
structure RoundTrace where
  outcomes : List SiteCheckResult
  checks_started : Nat
  sink_calls : Nat
deriving DecidableEq

/-- One round of `MonitoringService.monitor_sites`.  An empty site list
returns immediately; otherwise one checker task is created per site and
results are yielded in completion order — abstracted as an index list —
with each result handed to the sink (`log_result`) before being
yielded. -/
def monitor_sites (checkSiteFn : SiteConfig → SiteCheckResult)
    (completionOrder : List Nat) (sites : List SiteConfig) : RoundTrace :=
  if sites.isEmpty then { outcomes := [], checks_started := 0, sink_calls := 0 }
  else
    let tasks := sites.map checkSiteFn
    let ordered := completionOrder.filterMap fun i => tasks[i]?
    { outcomes := ordered
      checks_started := tasks.length
      sink_calls := ordered.length }

/-- Claim C9: on the empty site list one round of `monitor_sites` yields
zero outcomes, starts no check, and performs no sink call, whatever the
checker and whatever completion order the scheduler would have chosen. -/
theorem C9_empty_site_list_noop (f : SiteConfig → SiteCheckResult)
    (order : List Nat) :
    monitor_sites f order [] = { outcomes := [], checks_started := 0, sink_calls := 0 } :=
  rfl

/-- Witness for C9 at a concrete checker and completion order. -/
theorem C9_witness :
    monitor_sites
      (fun _ => { url := "w", status := CheckStatus.SUCCESS, response_time_ms := some 0 })
      [0] [] = { outcomes := [], checks_started := 0, sink_calls := 0 } :=
  C9_empty_site_list_noop
    (fun _ => { url := "w", status := CheckStatus.SUCCESS, response_time_ms := some 0 }) [0]

/-- The site-list rewrite of `MonitoringConfig.__post_init__` (config.py
lines 147-151): with a global retry config present, every site whose
`retry_config` equals the default `RetryConfig()` has it replaced. -/
def applyGlobalRetry (g : Option RetryConfig) (sites : List SiteConfig) :
    List SiteConfig :=
  match g with
  | none => sites
  | some gc =>
      sites.map fun s =>
        if s.retry_config = defaultRetryConfig then { s with retry_config := gc } else s

/-- `MonitoringConfig` of `domain/models/config.py`. -/
structure MonitoringConfig where
  sites : List SiteConfig
  check_interval : ℚ := 60
  log_file : String := "site_guard.log"
  global_retry_config : Option RetryConfig := none
deriving DecidableEq

/-- Construction of a `MonitoringConfig`, running `__post_init__`. -/
def mkMonitoringConfig (sites : List SiteConfig) (check_interval : ℚ)
    (log_file : String) (global_retry_config : Option RetryConfig) :
    MonitoringConfig :=
  { sites := applyGlobalRetry global_retry_config sites
    check_interval := check_interval
    log_file := log_file
    global_retry_config := global_retry_config }

/-- A Python number as passed to `with_overridden_interval`: an `int` or a
non-integer `float` (what `isinstance(interval, int)` distinguishes). -/
inductive PyNumber
  | int (n : Int)
  | float (q : ℚ)
deriving DecidableEq

/-- `MonitoringConfig.with_overridden_interval` (config.py lines 153-162):
raises unless the argument `isinstance(..., int)` and `interval < 0` is
false, then rebuilds the config with the new `check_interval`. -/
def with_overridden_interval (cfg : MonitoringConfig) (interval : PyNumber) :
    Except String MonitoringConfig :=
  match interval with
  | PyNumber.float _ => Except.error ("Overridden interval must be positive integer")
  | PyNumber.int n =>
      if n < 0 then Except.error ("Overridden interval must be positive integer")
      else Except.ok (mkMonitoringConfig cfg.sites (n : ℚ) cfg.log_file
        cfg.global_retry_config)

/-- A monitoring config for exercising `with_overridden_interval`. -/
def cfgC8 : MonitoringConfig := mkMonitoringConfig [] 60 ("site_guard.log") none

/-- Claim C8, evaluated on the code: `with_overridden_interval` accepts the
integer 0 — returning a config whose `check_interval` is 0 — although its
own error message and the specification require a positive integer (the
source tests `interval < 0` instead of `interval <= 0`); a negative
integer is rejected as the claim states. -/
theorem C8_zero_interval_accepted :
    with_overridden_interval cfgC8 (PyNumber.int 0) =
      Except.ok (mkMonitoringConfig [] 0 ("site_guard.log") none) ∧
    (mkMonitoringConfig [] 0 ("site_guard.log") none).check_interval = 0 ∧
    with_overridden_interval cfgC8 (PyNumber.int (-1)) =
      Except.error ("Overridden interval must be positive integer") := by
  refine ⟨rfl, rfl, rfl⟩

/-- Claim C10: constructing a `MonitoringConfig` with a global retry config
replaces the retry config of exactly those sites whose `retry_config`
equals the default `RetryConfig()` — whether left unset or explicitly
all-default — and leaves every other site unchanged. -/
theorem C10_global_retry_inheritance (gc : RetryConfig) (sites : List SiteConfig)
    (ci : ℚ) (lf : String) (i : Nat) (hi : i < sites.length)
    (ho : i < (mkMonitoringConfig sites ci lf (some gc)).sites.length) :
    ((sites.get ⟨i, hi⟩).retry_config = defaultRetryConfig →
      ((mkMonitoringConfig sites ci lf (some gc)).sites.get ⟨i, ho⟩).retry_config = gc) ∧
    ((sites.get ⟨i, hi⟩).retry_config ≠ defaultRetryConfig →
      (mkMonitoringConfig sites ci lf (some gc)).sites.get ⟨i, ho⟩ = sites.get ⟨i, hi⟩) := by
  have hmap : (mkMonitoringConfig sites ci lf (some gc)).sites.get ⟨i, ho⟩ =
      if (sites.get ⟨i, hi⟩).retry_config = defaultRetryConfig then
        { sites.get ⟨i, hi⟩ with retry_config := gc }
      else sites.get ⟨i, hi⟩ := by
    simp [mkMonitoringConfig, applyGlobalRetry, List.get_eq_getElem, List.getElem_map]
  constructor
  · intro h
    rw [hmap, if_pos h]
  · intro h
    rw [hmap, if_neg h]

/-- The C10 witness global retry config. -/
def gcW : RetryConfig := { max_attempts := 5, jitter := false }

/-- A site that leaves `retry_config` at the default. -/
def siteDefW : SiteConfig := { url := "a", content_requirements := [ReqEntry.str "x"] }

/-- A site with an explicit non-default `retry_config`. -/
def siteCustomW : SiteConfig :=
  { url := "b"
    content_requirements := [ReqEntry.str "x"]
    retry_config := { max_attempts := 7 } }

/-- Witness for C10 on a two-site config: the default-policy site inherits
the global config, the custom-policy site is unchanged. -/
theorem C10_witness :
    ((mkMonitoringConfig [siteDefW, siteCustomW] 60 ("log") (some gcW)).sites.get
        ⟨0, by decide⟩).retry_config = gcW ∧
    (mkMonitoringConfig [siteDefW, siteCustomW] 60 ("log") (some gcW)).sites.get
        ⟨1, by decide⟩ = siteCustomW :=
  ⟨(C10_global_retry_inheritance gcW [siteDefW, siteCustomW] 60 ("log") 0
      (by decide) (by decide)).1 rfl,
   (C10_global_retry_inheritance gcW [siteDefW, siteCustomW] 60 ("log") 1
      (by decide) (by decide)).2 (by decide)⟩

end SiteGuard
